import Mathlib

/-!
# Verification of the inventory reconciliation scripts

Shallow embedding of the row-processing core of the repository's inventory
update script (`src/scripts/inventory-update.js`) and of its earlier draft
(`src/unnamed/part_000`).  Remote HTTP interactions are modelled as oracles:
each remote call a row can make is answered by a corresponding field of a
`World` value, read in program order.  The functions below are direct
translations of the JavaScript source; line numbers in comments refer to
`src/scripts/inventory-update.js` unless noted otherwise.
-/

/-- JavaScript string coercion of a possibly-undefined CSV field:
`String(undefined)` is the string `"undefined"`. -/
def jsStr : Option String → String
  | none => "undefined"
  | some s => s

/-- Whitespace as stripped by JavaScript `trim` / skipped by `parseInt`
(the line terminators and spacing characters occurring in CSV data). -/
def isWSChar (c : Char) : Bool :=
  c == ' ' || c == '\t' || c == '\r' || c == '\n'

/-- Character-list trimming (both ends). -/
def trimChars (l : List Char) : List Char :=
  ((l.dropWhile isWSChar).reverse.dropWhile isWSChar).reverse

/-- JavaScript `String.prototype.trim`. -/
def jsTrim (s : String) : String := ⟨trimChars s.data⟩

/-- JavaScript `String.prototype.toLowerCase` (ASCII range; the script's
data is ASCII). -/
def jsToLower (s : String) : String := ⟨s.data.map Char.toLower⟩

/-- JavaScript string falsiness: `!s` is true exactly for the empty string. -/
def strEmpty (s : String) : Bool := s.data.isEmpty

/-- Longest prefix of decimal digits of a character list, as consumed by
JavaScript `parseInt(s, 10)`. -/
def leadingDigits : List Char → List Char
  | [] => []
  | c :: cs => if c.isDigit then c :: leadingDigits cs else []

/-- Numeric value of a digit list, most significant digit first. -/
def natFromDigits (ds : List Char) : Nat :=
  ds.foldl (fun acc c => acc * 10 + (c.toNat - 48)) 0

/-- JavaScript `parseInt(s, 10)`: skip leading whitespace, read an optional
sign, then the longest prefix of decimal digits; `none` models `NaN` (no
digits).  Trailing garbage (`"10abc"`, `"5.7"`) is ignored, so fractional
and negative strings parse to their truncated integer value.  (Arbitrary
precision is modelled exactly; the script only handles small quantities.) -/
def parseIntJS (s : String) : Option Int :=
  let core : List Char → Option Int := fun l =>
    match leadingDigits l with
    | [] => none
    | ds => some (natFromDigits ds : Int)
  match trimChars s.data with
  | '-' :: rest => (core rest).map (fun n => -n)
  | '+' :: rest => core rest
  | rest => core rest

/-- A variant as returned by the REST product listing (fields used by the
script: `sku`, `inventory_item_id`; the latter may be absent). -/
structure Variant where
  sku : String
  inventory_item_id : Option Nat
  deriving DecidableEq, Repr

/-- A product as returned by the REST product listing (`fields=id,variants`;
only `variants` is consumed by the script). -/
structure Product where
  variants : List Variant
  deriving DecidableEq, Repr

/-- A location node from the GraphQL `locations` query (lines 66-78):
`id`, `name`, `isActive`. -/
structure Location where
  id : String
  name : String
  isActive : Bool
  deriving DecidableEq, Repr

/-- An inventory level as read by `getInventoryLevel`; the script only
consumes its `available` field (line 309). -/
structure InvLevel where
  available : Int
  deriving DecidableEq, Repr

/-- A GraphQL user error (`field`, `message`) from `inventorySetQuantities`. -/
structure UserError where
  field : String
  message : String
  deriving DecidableEq, Repr

/-- One CSV input row; each field may be absent (`undefined`). -/
structure Row where
  sku : Option String
  location_name : Option String
  available : Option String
  deriving DecidableEq, Repr

/-- The per-row report record pushed by `processRow` / `main`. -/
structure RowOutcome where
  sku : String
  locationName : String
  result : String
  message : String
  deriving DecidableEq, Repr

/-- Response oracle for the REST product listing used by `findProductBySKU`:
either the listed products or a thrown transport/HTTP error. -/
inductive ListingResp
  | ok (products : List Product)
  | fail (msg : String)
  deriving DecidableEq, Repr

/-- Response oracle for the REST `inventory_levels/connect.json` call:
success, or a thrown error carrying an optional `errors.base` array and the
stringified response payload. -/
inductive ConnectResp
  | ok
  | errResp (base : Option (List String)) (stringified : String)
  deriving DecidableEq, Repr

/-- Response oracle for the `inventorySetQuantities` mutation: a transport
success carrying the `userErrors` array, or a thrown error (the string
stands for the stringified payload `err?.response?.data || err.message`). -/
inductive SetResp
  | ok (userErrors : List UserError)
  | fail (stringified : String)
  deriving DecidableEq, Repr

/-- Oracle for the remote calls a single row of `inventory-update.js` can
make, read in program order.  `level1`/`level2` are the first and second
`getInventoryLevel` reads (the level may change after the connect call or
remain unreadable).  `thrown = some m` models an unexpected exception
raised inside the `try` block, caught at line 338. -/
structure World where
  listing : ListingResp
  locations : Option (List Location)
  level1 : Option InvLevel
  connect : ConnectResp
  level2 : Option InvLevel
  setResp : SetResp
  thrown : Option String
  deriving DecidableEq, Repr

/-- A remote call recorded in a row's trace, with its arguments. -/
inductive Call
  | findProduct (sku : String)
  | getLocations
  | getLevel (inventoryItemId locationId : String)
  | connect (inventoryItemId locationId : String)
  | setQty (inventoryItemId locationId : String) (quantity : Int)
  deriving DecidableEq, Repr

/-- The observable effects of processing one row: remote calls issued and
`sleep` delays executed, in order. -/
structure Trace where
  calls : List Call
  sleeps : List Nat
  deriving DecidableEq, Repr

/-- Scan of the product listing performed by `findProductBySKU`
(lines 51-56): first product owning a variant whose `sku` equals the query
exactly; first match wins. -/
def findInProducts : List Product → String → Option (Product × Variant)
  | [], _ => none
  | p :: ps, sku =>
    match p.variants.find? (fun v => v.sku == sku) with
    | some v => some (p, v)
    | none => findInProducts ps sku

/-- `findProductBySKU` (lines 44-62): on a listing failure the error is
caught and `null` returned (line 58-61), indistinguishable from a
successful listing with no match. -/
def findProductBySKU (resp : ListingResp) (sku : String) :
    Option (Product × Variant) :=
  match resp with
  | .fail _ => none
  | .ok ps => findInProducts ps sku

/-- Name normalization used by `getLocationByName` (line 84):
`toLowerCase().trim()` on both sides.  (ASCII lowering; the script's data
is ASCII.) -/
def normName (s : String) : String := jsTrim (jsToLower s)

/-- `getLocationByName` (lines 65-91): the GraphQL query requests the full
location list with `includeLegacy: true, includeInactive: true`, so the
oracle list ranges over active and inactive locations alike; the function
returns the first location whose normalized name equals the normalized
query, never filtering on `isActive`.  A failed call is caught and yields
`null` (lines 87-90), modelled by a `none` response. -/
def getLocationByName (resp : Option (List Location)) (locationName : String) :
    Option Location :=
  match resp with
  | none => none
  | some ls => ls.find? (fun loc => normName loc.name == normName locationName)

/-- Result of `connectInventoryToLocation`. -/
inductive ConnectResult
  | success (alreadyExists : Bool)
  | failure (e : String)
  deriving DecidableEq, Repr

/-- `connectInventoryToLocation` (lines 94-122): a 2xx response is success;
a thrown error whose `errors.base` array contains `"already exists"`
(JavaScript `Array.prototype.includes`, i.e. exact element membership) is
treated as success with `alreadyExists`; any other error is a failure
carrying the stringified payload. -/
def connectInventoryToLocation (resp : ConnectResp) : ConnectResult :=
  match resp with
  | .ok => .success false
  | .errResp base s =>
    if (base.getD []).contains "already exists" then .success true
    else .failure s

/-- Result of `setInventoryGraphQL`. -/
inductive SetResult
  | success
  | userErrs (es : List UserError)
  | transportErr (e : String)
  deriving DecidableEq, Repr

/-- `setInventoryGraphQL` (lines 150-209): a transport success with a
non-empty `userErrors` array is an application failure; otherwise success;
a thrown error is a transport failure. -/
def setInventoryGraphQL (resp : SetResp) : SetResult :=
  match resp with
  | .ok es => if es.length > 0 then .userErrs es else .success
  | .fail e => .transportErr e

/-- The GraphQL global id built at lines 238-240 from the numeric
`inventory_item_id`. -/
def invItemGid (iid : Nat) : String :=
  "gid://shopify/InventoryItem/" ++ toString iid

/-- An error `RowOutcome` as built throughout `processRow`. -/
def errOutcome (sku locationName message : String) : RowOutcome :=
  { sku := sku, locationName := locationName, result := "error",
    message := message }

/-- The success message template of line 335. -/
def stockMessage (currentStock available : Int) (isActive : Bool) : String :=
  "Stock updated from " ++ toString currentStock ++ " to " ++
    toString available ++ " (GraphQL inventorySetQuantities)" ++
    (if isActive then "" else " [Location was INACTIVE]")

/-- Stage 4 of `processRow` (lines 309-336): compute `currentStock` as
`inventoryLevel?.available || 0` from the effective level, issue the
quantity-set mutation and build the outcome. -/
def setStage (w : World) (sku locationName : String) (available : Int)
    (inventoryItemId locationId : String) (isActive : Bool)
    (level : Option InvLevel) (calls : List Call) (sleeps : List Nat) :
    RowOutcome × List Call × List Nat :=
  let currentStock : Int :=
    match level with
    | some lvl => lvl.available
    | none => 0
  let calls2 := calls ++ [Call.setQty inventoryItemId locationId available]
  match setInventoryGraphQL w.setResp with
  | .userErrs es =>
    (errOutcome sku locationName
      ("Failed to set inventory: " ++
        String.intercalate ", " (es.map (fun e => e.message))),
     calls2, sleeps)
  | .transportErr e =>
    (errOutcome sku locationName ("Failed to set inventory: " ++ e),
     calls2, sleeps)
  | .success =>
    ({ sku := sku, locationName := locationName, result := "success",
       message := stockMessage currentStock available isActive },
     calls2, sleeps)

/-- The `try` block of `processRow` (lines 225-344): resolve the SKU, the
location, ensure the inventory level (connecting and waiting 500 ms when it
is unreadable, lines 276-307), then set the quantity.  Returns the outcome
together with the calls and sleeps performed inside the block. -/
def processRowTry (w : World) (sku locationName : String) (available : Int) :
    RowOutcome × List Call × List Nat :=
  match w.thrown with
  | some m => (errOutcome sku locationName ("Exception: " ++ m), [], [])
  | none =>
    let calls0 := [Call.findProduct sku]
    match findProductBySKU w.listing sku with
    | none =>
      (errOutcome sku locationName "Product/variant not found by SKU",
       calls0, [])
    | some (_, v) =>
      match v.inventory_item_id with
      | none =>
        (errOutcome sku locationName "Variant has no inventory_item_id",
         calls0, [])
      | some iid =>
        let inventoryItemId := invItemGid iid
        let calls1 := calls0 ++ [Call.getLocations]
        match getLocationByName w.locations locationName with
        | none => (errOutcome sku locationName "Location not found", calls1, [])
        | some location =>
          let locationId := location.id
          match w.level1 with
          | some lvl =>
            setStage w sku locationName available inventoryItemId locationId
              location.isActive (some lvl)
              (calls1 ++ [Call.getLevel inventoryItemId locationId]) []
          | none =>
            let calls2 := calls1 ++
              [Call.getLevel inventoryItemId locationId,
               Call.connect inventoryItemId locationId]
            match connectInventoryToLocation w.connect with
            | .failure e =>
              (errOutcome sku locationName
                ("Failed to connect inventory to location: " ++ e), calls2, [])
            | .success _ =>
              setStage w sku locationName available inventoryItemId locationId
                location.isActive w.level2
                (calls2 ++ [Call.getLevel inventoryItemId locationId]) [500]

/-- `processRow` (lines 211-348).  Validation (lines 212-223) happens
before the `try`/`finally`, so an invalid row returns immediately: no
remote call and no `sleep` at all.  Every path through the `try` block ends
with the `finally` pacing delay `sleep(400)` (line 346). -/
def processRow (w : World) (row : Row) : RowOutcome × Trace :=
  let sku := jsTrim (row.sku.getD "")
  let locationName := jsTrim (row.location_name.getD "")
  match parseIntJS (jsStr row.available) with
  | none =>
    (errOutcome sku locationName
      "Missing or invalid data (sku, location_name, or available)",
     { calls := [], sleeps := [] })
  | some available =>
    if strEmpty sku || strEmpty locationName then
      (errOutcome sku locationName
        "Missing or invalid data (sku, location_name, or available)",
       { calls := [], sleeps := [] })
    else
      let r := processRowTry w sku locationName available
      (r.1, { calls := r.2.1, sleeps := r.2.2 ++ [400] })

/-- The batch loop of `main` (lines 403-420): one `processRow` per input
row, outcomes pushed in order.  The surrounding per-row `catch`
(lines 411-419) is unreachable because `processRow` resolves with an
outcome on every path (its own `try`/`catch`/`finally` converts any
exception), hence the loop body is exactly the call.  Each row carries its
own oracle. -/
def mainLoop : List (World × Row) → List RowOutcome
  | [] => []
  | (w, row) :: rest => (processRow w row).1 :: mainLoop rest

/-- The validation predicate of line 216, as a Boolean on the raw row:
trimmed SKU non-empty, trimmed location name non-empty, `available` parses. -/
def validRow (row : Row) : Bool :=
  !strEmpty (jsTrim (row.sku.getD "")) &&
    (!strEmpty (jsTrim (row.location_name.getD "")) &&
      !(parseIntJS (jsStr row.available)).isNone)

namespace Draft

/-- Oracle for the remote calls of the draft script
(`src/unnamed/part_000`): its helpers do not catch errors, so a failed call
rejects and is caught by `processRow`'s own `catch`, which reports
`err.message`; `Except.error m` carries that message. -/
structure World where
  listing : Except String (List Product)
  locations : Except String (List Location)
  setResp : Except String (List UserError)
  deriving Repr

/-- Draft `findProductBySKU` (part_000 lines 44-57): takes the first listed
product and looks for a variant with the exact SKU; the variant may be
absent from the returned pair (`found.variant` undefined). -/
def findProductBySKU (resp : Except String (List Product)) (sku : String) :
    Except String (Option (Product × Option Variant)) :=
  match resp with
  | .error m => .error m
  | .ok [] => .ok none
  | .ok (p :: _) => .ok (some (p, p.variants.find? (fun v => v.sku == sku)))

/-- Draft `getLocationIdByName` (part_000 lines 59-76): exact, unnormalized
name match over the listed locations; returns the id of the first match. -/
def getLocationIdByName (resp : Except String (List Location))
    (locationName : String) : Except String (Option String) :=
  match resp with
  | .error m => .error m
  | .ok ls =>
    .ok ((ls.find? (fun loc => loc.name == locationName)).map (fun loc => loc.id))

/-- JavaScript template rendering of the parsed `available` value
(`NaN` when parsing failed). -/
def availStr : Option Int → String
  | none => "NaN"
  | some n => toString n

/-- Abstract stand-in for `JSON.stringify` of the `userErrors` array
(part_000 line 143); its exact text is irrelevant to the properties proved
here, only that the outcome is an error. -/
def stringifyUserErrors (es : List UserError) : String :=
  String.intercalate "," (es.map (fun e => e.field ++ ":" ++ e.message))

/-- Draft `processRow` (part_000 lines 112-158).  Note `String(row.sku)`
renders an absent field as `"undefined"` (no `|| ""` fallback here), there
is no `isNaN` validation, and a thrown helper error surfaces as the row's
message. -/
def processRow (w : World) (row : Row) : RowOutcome :=
  let sku := jsTrim (jsStr row.sku)
  let locationName := jsTrim (jsStr row.location_name)
  let available? := parseIntJS (jsStr row.available)
  if strEmpty sku || strEmpty locationName then
    errOutcome sku locationName "Missing data"
  else
    match findProductBySKU w.listing sku with
    | .error m => errOutcome sku locationName m
    | .ok none => errOutcome sku locationName "Product not found by SKU"
    | .ok (some (_, none)) => errOutcome sku locationName "Product not found by SKU"
    | .ok (some (_, some _)) =>
      match getLocationIdByName w.locations locationName with
      | .error m => errOutcome sku locationName m
      | .ok none => errOutcome sku locationName "Location not found"
      | .ok (some locationId) =>
        if strEmpty locationId then
          errOutcome sku locationName "Location not found"
        else
          match w.setResp with
          | .error m => errOutcome sku locationName m
          | .ok userErrors =>
            if userErrors.length > 0 then
              errOutcome sku locationName (stringifyUserErrors userErrors)
            else
              { sku := sku, locationName := locationName, result := "success",
                message := "Stock set to " ++ availStr available? }

/-- Substring test, as JavaScript `String.prototype.includes`. -/
def containsSub (text pat : String) : Bool :=
  (List.range (text.data.length + 1)).any
    (fun i => pat.data.isPrefixOf (text.data.drop i))

/-- The message rewrite in the draft `main` loop (part_000 lines 186-189):
an outcome whose message contains `"location not found"` (case-insensitive)
is rewritten to quote the row's raw `location_name` field. -/
def fixMessage (row : Row) (res : RowOutcome) : RowOutcome :=
  if !strEmpty res.message && containsSub (jsToLower res.message) "location not found" then
    { res with
      message := "Location \"" ++ jsStr row.location_name ++ "\" not found or inactive" }
  else res

/-- One iteration of the draft `main` loop (part_000 lines 184-204):
process the row, then apply the message rewrite. -/
def mainStep (w : World) (row : Row) : RowOutcome :=
  fixMessage row (processRow w row)

end Draft

/-! ### Concrete fixtures used by witnesses and counterexamples -/

/-- A variant carrying SKU `"SKU1"` and a numeric inventory item id. -/
def sampleVariant : Variant := { sku := "SKU1", inventory_item_id := some 111 }

/-- A product owning `sampleVariant`. -/
def sampleProduct : Product := { variants := [sampleVariant] }

/-- An active location named `"Main"`. -/
def sampleLocation : Location :=
  { id := "gid://shopify/Location/7", name := "Main", isActive := true }

/-- An inactive location whose stored name has surrounding whitespace and
mixed case. -/
def inactiveLoc : Location :=
  { id := "gid://shopify/Location/9", name := " Depot ", isActive := false }

/-- A fully cooperative oracle: listing finds `sampleProduct`, the location
list holds `sampleLocation`, the level is readable, and the mutation
succeeds. -/
def okWorld : World :=
  { listing := .ok [sampleProduct], locations := some [sampleLocation],
    level1 := some { available := 5 }, connect := .ok, level2 := none,
    setResp := .ok [], thrown := none }

/-- `okWorld` with both inventory-level reads unreadable (the tolerant
connect-then-proceed path). -/
def tolerantWorld : World :=
  { okWorld with level1 := none, level2 := none }

/-- `okWorld` resolving the inactive location, with a readable level of 2. -/
def inactiveWorld : World :=
  { listing := .ok [sampleProduct], locations := some [inactiveLoc],
    level1 := some { available := 2 }, connect := .ok, level2 := none,
    setResp := .ok [], thrown := none }

/-- A well-formed row targeting `"Main"` with quantity 3. -/
def goodRow : Row :=
  { sku := some "SKU1", location_name := some "Main", available := some "3" }

/-- A row whose SKU is empty: fails validation. -/
def rowEmptySku : Row :=
  { sku := some "", location_name := some "Main", available := some "3" }

/-- A row whose `available` field is the negative string `"-3"`. -/
def negRow : Row :=
  { sku := some "SKU1", location_name := some "Main", available := some "-3" }

/-- A row targeting the inactive `"Depot"` location with quantity 7. -/
def depotRow : Row :=
  { sku := some "SKU1", location_name := some "Depot", available := some "7" }

example : parseIntJS "-3" = some (-3) := by decide
example : parseIntJS "5.7" = some 5 := by decide
example : parseIntJS "10abc" = some 10 := by decide
example : parseIntJS "" = none := by decide
example : parseIntJS "undefined" = none := by decide
example : (processRow okWorld goodRow).1.result = "success" := by decide
example : (processRow okWorld rowEmptySku).2.sleeps = [] := by decide

/-! ### Helper lemmas -/

/-- Every path through the `try` block yields a `"success"` or `"error"`
outcome. -/
theorem processRowTry_result_cases (w : World) (s ln : String) (a : Int) :
    (processRowTry w s ln a).1.result = "success" ∨
      (processRowTry w s ln a).1.result = "error" := by
  unfold processRowTry setStage
  repeat' split
  all_goals first | (left; rfl) | (right; rfl)

/-- The sleeps performed inside the `try` block are none, or the single
500 ms propagation wait of the connect branch. -/
theorem processRowTry_sleeps_cases (w : World) (s ln : String) (a : Int) :
    (processRowTry w s ln a).2.2 = [] ∨ (processRowTry w s ln a).2.2 = [500] := by
  unfold processRowTry setStage
  repeat' split
  all_goals first | (left; rfl) | (right; rfl)

/-- Reduction of `processRow` on a row passing validation. -/
theorem processRow_valid (w : World) (row : Row) (n : Int)
    (hp : parseIntJS (jsStr row.available) = some n)
    (h1 : strEmpty (jsTrim (row.sku.getD "")) = false)
    (h2 : strEmpty (jsTrim (row.location_name.getD "")) = false) :
    processRow w row =
      ((processRowTry w (jsTrim (row.sku.getD ""))
          (jsTrim (row.location_name.getD "")) n).1,
       { calls := (processRowTry w (jsTrim (row.sku.getD ""))
            (jsTrim (row.location_name.getD "")) n).2.1,
         sleeps := (processRowTry w (jsTrim (row.sku.getD ""))
            (jsTrim (row.location_name.getD "")) n).2.2 ++ [400] }) := by
  unfold processRow
  rw [hp]
  simp [h1, h2]

/-- Reduction of `processRow` on a row failing validation. -/
theorem processRow_invalid (w : World) (row : Row)
    (h : strEmpty (jsTrim (row.sku.getD "")) = true ∨
         strEmpty (jsTrim (row.location_name.getD "")) = true ∨
         parseIntJS (jsStr row.available) = none) :
    processRow w row =
      (errOutcome (jsTrim (row.sku.getD "")) (jsTrim (row.location_name.getD ""))
        "Missing or invalid data (sku, location_name, or available)",
       { calls := [], sleeps := [] }) := by
  unfold processRow
  cases hp : parseIntJS (jsStr row.available) with
  | none => rfl
  | some a =>
    have hor : (strEmpty (jsTrim (row.sku.getD "")) ||
        strEmpty (jsTrim (row.location_name.getD ""))) = true := by
      rcases h with h | h | h
      · simp [h]
      · simp [h]
      · rw [h] at hp; cases hp
    simp [hor]

/-! ### Claims -/

/-- C1: for every input row sequence the batch produces exactly one
`RowOutcome` per input row, in input order (the loop of `main`,
lines 403-420, pushes the result of `processRow` for the i-th row as the
i-th outcome); `processRow` resolves with a `"success"` or `"error"`
outcome on every path, and an unexpected exception raised while processing
a row is converted into a `result = "error"` outcome instead of aborting
the batch. -/
theorem C1_one_outcome_per_row_in_order :
    (∀ l : List (World × Row), (mainLoop l).length = l.length) ∧
    (∀ (l : List (World × Row)) (i : Nat),
      (mainLoop l)[i]? = (l[i]?).map (fun p => (processRow p.1 p.2).1)) ∧
    (∀ (w : World) (row : Row),
      (processRow w row).1.result = "success" ∨
        (processRow w row).1.result = "error") ∧
    (∀ (w : World) (row : Row) (m : String),
      w.thrown = some m → validRow row = true →
        (processRow w row).1.result = "error") := by
  refine ⟨?_, ?_, ?_, ?_⟩
  · intro l
    induction l with
    | nil => rfl
    | cons p rest ih => simp [mainLoop, ih]
  · intro l i
    induction l generalizing i with
    | nil => simp [mainLoop]
    | cons p rest ih =>
      cases i with
      | zero => simp [mainLoop]
      | succ j => simpa [mainLoop] using ih j
  · intro w row
    cases hp : parseIntJS (jsStr row.available) with
    | none =>
      rw [processRow_invalid w row (Or.inr (Or.inr hp))]
      right; rfl
    | some a =>
      by_cases h1 : strEmpty (jsTrim (row.sku.getD "")) = true
      · rw [processRow_invalid w row (Or.inl h1)]; right; rfl
      · by_cases h2 : strEmpty (jsTrim (row.location_name.getD "")) = true
        · rw [processRow_invalid w row (Or.inr (Or.inl h2))]; right; rfl
        · rw [processRow_valid w row a hp (by simpa using h1) (by simpa using h2)]
          exact processRowTry_result_cases ..
  · intro w row m hm hv
    simp only [validRow, Bool.and_eq_true, Bool.not_eq_true'] at hv
    obtain ⟨h1, h2, h3⟩ := hv
    cases hp : parseIntJS (jsStr row.available) with
    | none => rw [hp] at h3; cases h3
    | some a =>
      rw [processRow_valid w row a hp h1 h2]
      unfold processRowTry
      rw [hm]
      simp [errOutcome]

/-- C1 witness: with a concrete exception oracle the outcome is an error. -/
theorem C1_w :
    (processRow { okWorld with thrown := some "boom" } goodRow).1.result =
      "error" :=
  C1_one_outcome_per_row_in_order.2.2.2 { okWorld with thrown := some "boom" }
    goodRow "boom" rfl (by decide)

/-- C2 counterexample: a row with an empty SKU fails validation
(lines 216-223), which happens before the `try`/`finally`, so its error
outcome is returned with no pacing delay at all — refuting "exactly one
fixed pacing delay is executed before the row's outcome is returned"
for rows failing validation. -/
theorem C2_cex :
    (processRow okWorld rowEmptySku).1.result = "error" ∧
      (processRow okWorld rowEmptySku).2.sleeps = [] := by decide

/-- C2 (amended): for every row that passes validation, exactly one 400 ms
pacing delay executes, as the last delay before the outcome is returned,
on success and on every failure path inside the `try` block (the `finally`
of line 346); a row failing validation returns immediately with no delay. -/
theorem C2_pacing_delay (w : World) (row : Row) :
    (validRow row = true →
      ((processRow w row).2.sleeps.count 400 = 1 ∧
        (processRow w row).2.sleeps.getLast? = some 400)) ∧
    (validRow row = false → (processRow w row).2.sleeps = []) := by
  constructor
  · intro hv
    simp only [validRow, Bool.and_eq_true, Bool.not_eq_true'] at hv
    obtain ⟨h1, h2, h3⟩ := hv
    cases hp : parseIntJS (jsStr row.available) with
    | none => rw [hp] at h3; cases h3
    | some a =>
      rw [processRow_valid w row a hp h1 h2]
      rcases processRowTry_sleeps_cases w (jsTrim (row.sku.getD ""))
          (jsTrim (row.location_name.getD "")) a with hs | hs <;>
        simp [hs, List.getLast?_concat]
  · intro hv
    simp only [validRow, Bool.and_eq_false_iff, Bool.not_eq_false'] at hv
    have h : strEmpty (jsTrim (row.sku.getD "")) = true ∨
        strEmpty (jsTrim (row.location_name.getD "")) = true ∨
        parseIntJS (jsStr row.available) = none := by
      rcases hv with h | h | h
      · exact Or.inl h
      · exact Or.inr (Or.inl h)
      · exact Or.inr (Or.inr (Option.isNone_iff_eq_none.mp (by simpa using h)))
    rw [processRow_invalid w row h]

/-- C2 witness: on a valid row the single pacing delay is observed. -/
theorem C2_pacing_delay_w :
    (processRow okWorld goodRow).2.sleeps.count 400 = 1 ∧
      (processRow okWorld goodRow).2.sleeps.getLast? = some 400 :=
  (C2_pacing_delay okWorld goodRow).1 (by decide)

/-- C3 counterexample: the row `{sku: "SKU1", location_name: "Main",
available: "-3"}` has an `available` field that does not parse to a
non-negative integer (`parseInt` gives `-3`), yet with a cooperative
remote the script issues remote calls and even reports success — the
validation of line 216 only rejects `NaN`, not negative values. -/
theorem C3_cex :
    (processRow okWorld negRow).1.result = "success" ∧
      (processRow okWorld negRow).2.calls ≠ [] := by decide

/-- C3 (amended): a row with an empty (after trimming) SKU, an empty
(after trimming) location name, or an `available` field on which
JavaScript `parseInt` yields `NaN` gets the fixed invalid-data error
outcome with no remote call (and no delay); fields parsing to negative or
truncated integers are not rejected. -/
theorem C3_invalid_row_no_call (w : World) (row : Row)
    (h : strEmpty (jsTrim (row.sku.getD "")) = true ∨
         strEmpty (jsTrim (row.location_name.getD "")) = true ∨
         parseIntJS (jsStr row.available) = none) :
    (processRow w row).1 =
      errOutcome (jsTrim (row.sku.getD "")) (jsTrim (row.location_name.getD ""))
        "Missing or invalid data (sku, location_name, or available)" ∧
    (processRow w row).2.calls = [] ∧ (processRow w row).2.sleeps = [] := by
  rw [processRow_invalid w row h]
  exact ⟨rfl, rfl, rfl⟩

/-- C3 witness: the empty-SKU row gets the invalid-data outcome and no
remote call. -/
theorem C3_invalid_row_no_call_w :
    (processRow okWorld rowEmptySku).1 =
      errOutcome (jsTrim (rowEmptySku.sku.getD ""))
        (jsTrim (rowEmptySku.location_name.getD ""))
        "Missing or invalid data (sku, location_name, or available)" ∧
    (processRow okWorld rowEmptySku).2.calls = [] ∧
      (processRow okWorld rowEmptySku).2.sleeps = [] :=
  C3_invalid_row_no_call okWorld rowEmptySku (Or.inl (by decide))

/-- `okWorld` whose product listing call fails (network/timeout/HTTP). -/
def failListingWorld : World := { okWorld with listing := .fail "timeout" }

/-- `okWorld` whose product listing succeeds but lists no products. -/
def emptyListingWorld : World := { okWorld with listing := .ok [] }

/-- C4 counterexample: a failed listing call and a successful listing with
no matching variant produce the identical `null` result in
`findProductBySKU` (the `catch` of lines 58-61 returns `null`), and the
identical `"Product/variant not found by SKU"` row outcome — the two
failure modes ARE collapsed, refuting the claimed distinction. -/
theorem C4_cex :
    findProductBySKU (ListingResp.fail "timeout") "SKU1" =
        findProductBySKU (ListingResp.ok []) "SKU1" ∧
      findProductBySKU (ListingResp.fail "timeout") "SKU1" = none ∧
      (processRow failListingWorld goodRow).1 =
        (processRow emptyListingWorld goodRow).1 ∧
      (processRow failListingWorld goodRow).1.message =
        "Product/variant not found by SKU" := by decide

/-- C4 (amended): the SKU resolver collapses its two failure modes: when
the listing call itself fails the error is caught and `null` is returned
(lines 58-61), exactly as when the listing succeeds but no variant carries
the SKU; there is no distinct transient-failure result. -/
theorem C4_failure_modes_collapsed (m sku : String) (ps : List Product)
    (h : findInProducts ps sku = none) :
    findProductBySKU (ListingResp.fail m) sku = none ∧
      findProductBySKU (ListingResp.ok ps) sku = none := by
  unfold findProductBySKU
  exact ⟨rfl, h⟩

/-- C4 witness: both failure modes at a concrete input. -/
theorem C4_failure_modes_collapsed_w :
    findProductBySKU (ListingResp.fail "timeout") "SKU1" = none ∧
      findProductBySKU (ListingResp.ok []) "SKU1" = none :=
  C4_failure_modes_collapsed "timeout" "SKU1" [] (by decide)

/-- C5: in the draft pipeline (`src/unnamed/part_000`), a row that reaches
the location stage (validation passed, the product listing returned a
product owning the SKU) and whose location name matches no listed location
gets `result = "error"` from `processRow` ("Location not found",
part_000 line 133), which the `main` loop then rewrites (lines 186-189) to
exactly `Location "<name>" not found or inactive`, quoting the row's raw
`location_name` field. -/
theorem C5_location_not_found_message (w : Draft.World) (row : Row)
    (p : Product) (rest : List Product) (v : Variant) (ls : List Location)
    (hsku : strEmpty (jsTrim (jsStr row.sku)) = false)
    (hloc : strEmpty (jsTrim (jsStr row.location_name)) = false)
    (hlist : w.listing = .ok (p :: rest))
    (hv : p.variants.find? (fun x => x.sku == jsTrim (jsStr row.sku)) = some v)
    (hls : w.locations = .ok ls)
    (hnone : ∀ loc ∈ ls, loc.name ≠ jsTrim (jsStr row.location_name)) :
    Draft.mainStep w row =
      { sku := jsTrim (jsStr row.sku),
        locationName := jsTrim (jsStr row.location_name),
        result := "error",
        message := "Location \"" ++ jsStr row.location_name ++
          "\" not found or inactive" } := by
  have hfind : ls.find? (fun loc => loc.name == jsTrim (jsStr row.location_name)) =
      none := by
    rw [List.find?_eq_none]
    intro loc hmem
    simpa using hnone loc hmem
  unfold Draft.mainStep Draft.processRow Draft.findProductBySKU
    Draft.getLocationIdByName
  rw [hlist, hls]
  simp only [hsku, hloc, hv, hfind, Option.map, Bool.or_self,
    Bool.false_eq_true, if_false]
  have hguard : (!strEmpty "Location not found" &&
      Draft.containsSub (jsToLower "Location not found") "location not found") =
        true := by decide
  unfold Draft.fixMessage
  dsimp only [errOutcome]
  rw [hguard]
  rfl

/-- A draft-world oracle where the location list does not contain the
requested name. -/
def draftWorld : Draft.World :=
  { listing := .ok [sampleProduct], locations := .ok [sampleLocation],
    setResp := .ok [] }

/-- A row requesting location `"Nowhere"`, absent from `draftWorld`. -/
def nowhereRow : Row :=
  { sku := some "SKU1", location_name := some "Nowhere", available := some "4" }

/-- C5 witness: the exact rewritten message at a concrete input. -/
theorem C5_location_not_found_message_w :
    Draft.mainStep draftWorld nowhereRow =
      { sku := jsTrim (jsStr nowhereRow.sku),
        locationName := jsTrim (jsStr nowhereRow.location_name),
        result := "error",
        message := "Location \"" ++ jsStr nowhereRow.location_name ++
          "\" not found or inactive" } :=
  C5_location_not_found_message draftWorld nowhereRow sampleProduct []
    sampleVariant [sampleLocation] (by decide) (by decide) rfl (by decide) rfl
    (by decide)

/-- Modelled from the spec: the remote link-create endpoint
(`inventory_levels/connect.json`) is not part of this repository; per the
spec (§4.4, §3 InventoryLink), creating a link that is already present
returns a "link already exists" application error, while creating an
absent one succeeds and records the link. -/
def remoteConnect (links : List (String × String)) (item loc : String) :
    ConnectResp × List (String × String) :=
  if links.contains (item, loc) then
    (ConnectResp.errResp (some ["already exists"]) "already exists", links)
  else (ConnectResp.ok, (item, loc) :: links)

/-- C6: `connectInventoryToLocation` (lines 114-121) treats an error whose
`errors.base` contains `"already exists"` as success, so a second
link-create call for the same (inventory item, location) pair — answered
by the remote with the already-exists application error — never produces
an error outcome. -/
theorem C6_already_exists_is_success (base : List String) (s : String)
    (h : base.contains "already exists" = true) :
    connectInventoryToLocation (ConnectResp.errResp (some base) s) =
        ConnectResult.success true ∧
    (∀ (links : List (String × String)) (item loc : String),
      connectInventoryToLocation
        (remoteConnect ((remoteConnect links item loc).2) item loc).1 =
      ConnectResult.success true) := by
  have hm : "already exists" ∈ base := by simpa using h
  constructor
  · simp [connectInventoryToLocation, hm]
  · intro links item loc
    by_cases hc : (item, loc) ∈ links
    · simp [remoteConnect, connectInventoryToLocation, hc]
    · simp [remoteConnect, connectInventoryToLocation, hc]

/-- C6 witness: a concrete already-exists error is success. -/
theorem C6_already_exists_is_success_w :
    connectInventoryToLocation
        (ConnectResp.errResp (some ["x", "already exists"]) "e") =
      ConnectResult.success true :=
  (C6_already_exists_is_success ["x", "already exists"] "e" (by decide)).1

/-- C7: when the first inventory-level read finds nothing, the connect
call succeeds, and the re-read of line 300 still finds no level,
`processRow` does not fail: the warning of line 305 only logs and the row
proceeds to the quantity-set stage (the mutation is issued), so an
unreadable level after a create attempt is never by itself a hard error —
the outcome is whatever the mutation reports, `"success"` when it
succeeds. -/
theorem C7_unreadable_level_tolerated (w : World) (row : Row) (p : Product)
    (v : Variant) (iid : Nat) (loc : Location) (b : Bool) (n : Int)
    (hthrown : w.thrown = none)
    (hp : parseIntJS (jsStr row.available) = some n)
    (h1 : strEmpty (jsTrim (row.sku.getD "")) = false)
    (h2 : strEmpty (jsTrim (row.location_name.getD "")) = false)
    (hfind : findProductBySKU w.listing (jsTrim (row.sku.getD "")) = some (p, v))
    (hiid : v.inventory_item_id = some iid)
    (hloc : getLocationByName w.locations (jsTrim (row.location_name.getD "")) =
      some loc)
    (hl1 : w.level1 = none)
    (hconn : connectInventoryToLocation w.connect = ConnectResult.success b)
    (hl2 : w.level2 = none) :
    Call.setQty (invItemGid iid) loc.id n ∈ (processRow w row).2.calls ∧
    (setInventoryGraphQL w.setResp = SetResult.success →
      (processRow w row).1.result = "success") := by
  rw [processRow_valid w row n hp h1 h2]
  unfold processRowTry setStage
  simp only [hthrown, hfind, hiid, hloc, hl1, hconn, hl2]
  constructor
  · cases hset : setInventoryGraphQL w.setResp <;> simp
  · intro hset
    rw [hset]

/-- C7 witness: with both level reads unreadable and everything else
cooperative, the mutation is issued and the row succeeds. -/
theorem C7_unreadable_level_tolerated_w :
    Call.setQty (invItemGid 111) "gid://shopify/Location/7" 3 ∈
      (processRow tolerantWorld goodRow).2.calls ∧
    (setInventoryGraphQL tolerantWorld.setResp = SetResult.success →
      (processRow tolerantWorld goodRow).1.result = "success") :=
  C7_unreadable_level_tolerated tolerantWorld goodRow sampleProduct
    sampleVariant 111 sampleLocation false 3 rfl (by decide) (by decide)
    (by decide) (by decide) rfl (by decide) rfl rfl rfl

/-- First-match characterization of `List.find?`. -/
theorem find?_eq_some_first {α : Type} (p : α → Bool) (l : List α) (a : α) :
    l.find? p = some a ↔
      ∃ i : Nat, l[i]? = some a ∧ p a = true ∧
        ∀ j, j < i → ∀ b, l[j]? = some b → p b = false := by
  induction l with
  | nil => simp
  | cons x xs ih =>
    by_cases hx : p x = true
    · rw [List.find?_cons_of_pos _ hx]
      constructor
      · intro hxa
        have hax : x = a := by simpa using hxa
        subst hax
        exact ⟨0, by simp, hx, fun j hj => absurd hj (Nat.not_lt_zero j)⟩
      · rintro ⟨i, hi, hpa, hfirst⟩
        cases i with
        | zero =>
          have : x = a := by simpa using hi
          simp [this]
        | succ k =>
          have hfalse : p x = false :=
            hfirst 0 (Nat.succ_pos k) x (by simp)
          rw [hx] at hfalse
          cases hfalse
    · have hx' : ¬ p x := by simpa using hx
      rw [List.find?_cons_of_neg _ hx', ih]
      constructor
      · rintro ⟨i, hi, hpa, hfirst⟩
        refine ⟨i + 1, by simpa using hi, hpa, ?_⟩
        intro j hj b hb
        cases j with
        | zero =>
          have : x = b := by simpa using hb
          subst this
          simpa using hx'
        | succ k => exact hfirst k (by omega) b (by simpa using hb)
      · rintro ⟨i, hi, hpa, hfirst⟩
        cases i with
        | zero =>
          have : x = a := by simpa using hi
          subst this
          rw [hpa] at hx
          cases hx rfl
        | succ k =>
          refine ⟨k, by simpa using hi, hpa, ?_⟩
          intro j hj b hb
          exact hfirst (j + 1) (by omega) b (by simpa using hb)

/-- C8: the Location Resolver returns exactly the first location of the
listing (which the query requests with `includeInactive: true`, so active
and inactive locations alike) whose trimmed-and-lowercased name equals the
trimmed-and-lowercased query; the location record is returned as listed —
`isActive` flag included — and the matching condition never consults
`isActive`, so inactive locations are resolvable, not rejected. -/
theorem C8_first_normalized_match (ls : List Location) (q : String)
    (loc : Location) :
    getLocationByName (some ls) q = some loc ↔
      ∃ i : Nat, ls[i]? = some loc ∧ normName loc.name = normName q ∧
        ∀ j, j < i → ∀ l, ls[j]? = some l → normName l.name ≠ normName q := by
  unfold getLocationByName
  rw [find?_eq_some_first]
  constructor
  · rintro ⟨i, hi, hp, hf⟩
    exact ⟨i, hi, by simpa using hp,
      fun j hj l hl => by simpa using hf j hj l hl⟩
  · rintro ⟨i, hi, hp, hf⟩
    exact ⟨i, hi, by simpa using hp,
      fun j hj l hl => by simpa using hf j hj l hl⟩

/-- C8 witness: an inactive location whose stored name differs in case and
whitespace is still resolved. -/
theorem C8_first_normalized_match_w :
    getLocationByName (some [inactiveLoc]) "depot" = some inactiveLoc :=
  (C8_first_normalized_match [inactiveLoc] "depot" inactiveLoc).mpr
    ⟨0, by decide, by decide, fun j hj => absurd hj (Nat.not_lt_zero j)⟩

/-- The inventory level effectively observed by stage 4: the first read,
or — when it was unreadable and a connect was attempted — the re-read of
line 300. -/
def effectiveLevel (w : World) : Option InvLevel :=
  match w.level1 with
  | some lvl => some lvl
  | none => w.level2

/-- `currentStock` (line 309): `inventoryLevel?.available || 0`, i.e. the
effective level's quantity, defaulted to 0 when no level was readable. -/
def currentStockOf (w : World) : Int :=
  match effectiveLevel w with
  | some lvl => lvl.available
  | none => 0

/-- C9: when the quantity-set mutation succeeds, the outcome is
`result = "success"` with the message of line 335 reporting the prior
quantity (0 when no level was readable) and the new quantity, suffixed
with ` [Location was INACTIVE]` exactly when the resolved location was
inactive. -/
theorem C9_success_message (w : World) (row : Row) (p : Product)
    (v : Variant) (iid : Nat) (loc : Location) (n : Int)
    (hthrown : w.thrown = none)
    (hp : parseIntJS (jsStr row.available) = some n)
    (h1 : strEmpty (jsTrim (row.sku.getD "")) = false)
    (h2 : strEmpty (jsTrim (row.location_name.getD "")) = false)
    (hfind : findProductBySKU w.listing (jsTrim (row.sku.getD "")) = some (p, v))
    (hiid : v.inventory_item_id = some iid)
    (hloc : getLocationByName w.locations (jsTrim (row.location_name.getD "")) =
      some loc)
    (hconn : w.level1 = none →
      ∃ b, connectInventoryToLocation w.connect = ConnectResult.success b)
    (hset : setInventoryGraphQL w.setResp = SetResult.success) :
    (processRow w row).1 =
      { sku := jsTrim (row.sku.getD ""),
        locationName := jsTrim (row.location_name.getD ""),
        result := "success",
        message := "Stock updated from " ++ toString (currentStockOf w) ++
          " to " ++ toString n ++ " (GraphQL inventorySetQuantities)" ++
          (if loc.isActive then "" else " [Location was INACTIVE]") } ∧
    (effectiveLevel w = none → currentStockOf w = 0) := by
  constructor
  · rw [processRow_valid w row n hp h1 h2]
    unfold processRowTry setStage
    simp only [hthrown, hfind, hiid, hloc]
    cases hl1 : w.level1 with
    | some lvl =>
      simp only [hset]
      unfold stockMessage currentStockOf effectiveLevel
      rw [hl1]
    | none =>
      obtain ⟨b, hb⟩ := hconn hl1
      simp only [hb, hset]
      unfold stockMessage currentStockOf effectiveLevel
      rw [hl1]
  · intro he
    unfold currentStockOf
    rw [he]

/-- C9 witness: the annotated success message at an inactive location with
prior stock 2 and target 7. -/
theorem C9_success_message_w :
    (processRow inactiveWorld depotRow).1 =
      { sku := "SKU1", locationName := "Depot", result := "success",
        message :=
          "Stock updated from 2 to 7 (GraphQL inventorySetQuantities) [Location was INACTIVE]" } :=
  ((C9_success_message inactiveWorld depotRow sampleProduct sampleVariant 111
      inactiveLoc 7 rfl (by decide) (by decide) (by decide) (by decide)
      (by decide) (by decide) (fun hl1 => absurd hl1 (by decide))
      (by decide)).1).trans (by decide)

/-- C10: a row whose `available` string carries a leading integer prefix
passes validation (only `NaN` is rejected at line 216) and the
`inventorySetQuantities` mutation is issued with the `parseInt`-truncated
value; in particular `"-3"`, `"5.7"` and `"10abc"` are accepted and
truncate to `-3`, `5` and `10`. -/
theorem C10_truncated_quantity_issued (w : World) (row : Row) (p : Product)
    (v : Variant) (iid : Nat) (loc : Location) (n : Int)
    (hthrown : w.thrown = none)
    (hp : parseIntJS (jsStr row.available) = some n)
    (h1 : strEmpty (jsTrim (row.sku.getD "")) = false)
    (h2 : strEmpty (jsTrim (row.location_name.getD "")) = false)
    (hfind : findProductBySKU w.listing (jsTrim (row.sku.getD "")) = some (p, v))
    (hiid : v.inventory_item_id = some iid)
    (hloc : getLocationByName w.locations (jsTrim (row.location_name.getD "")) =
      some loc)
    (hlevel : w.level1 ≠ none ∨
      ∃ b, connectInventoryToLocation w.connect = ConnectResult.success b) :
    Call.setQty (invItemGid iid) loc.id n ∈ (processRow w row).2.calls ∧
      parseIntJS "-3" = some (-3) ∧ parseIntJS "5.7" = some 5 ∧
      parseIntJS "10abc" = some 10 := by
  refine ⟨?_, by decide, by decide, by decide⟩
  rw [processRow_valid w row n hp h1 h2]
  unfold processRowTry setStage
  simp only [hthrown, hfind, hiid, hloc]
  cases hl1 : w.level1 with
  | some lvl =>
    cases hset : setInventoryGraphQL w.setResp <;> simp
  | none =>
    rcases hlevel with hne | ⟨b, hb⟩
    · exact absurd hl1 hne
    · simp only [hb]
      cases hset : setInventoryGraphQL w.setResp <;> simp

/-- C10 witness: the negative string `"-3"` reaches the mutation as `-3`. -/
theorem C10_truncated_quantity_issued_w :
    Call.setQty (invItemGid 111) "gid://shopify/Location/7" (-3) ∈
      (processRow okWorld negRow).2.calls ∧
      parseIntJS "-3" = some (-3) ∧ parseIntJS "5.7" = some 5 ∧
      parseIntJS "10abc" = some 10 :=
  C10_truncated_quantity_issued okWorld negRow sampleProduct sampleVariant 111
    sampleLocation (-3) rfl (by decide) (by decide) (by decide) (by decide)
    rfl (by decide) (Or.inl (by decide))
